import Mathlib

/-!
Verification of the video-pipeline handler (`src/main.py` and
`src/improved_main.py`) against its natural-language specification.

The Python code is shallowly embedded: byte strings become `List Nat`,
HTTP responses become a `Response` record describing what the remote
server returns, exceptions become explicit outcome values, and the
side effects of the handler (temp-file creation, network and storage
calls, unlink attempts) are recorded as an event trace.  `download_video`,
`validate_request`, `upscale_video` and the per-name helpers follow the
Python source line by line; where the two source files are identical
(download, validation, cleanup) a single definition serves both.
-/

namespace VFlow

/-- Constant from both source files: `MAX_FILE_SIZE = 500 * 1024 * 1024`. -/
def MAX_FILE_SIZE : Nat := 500 * 1024 * 1024

/-- Constant from both source files: `CHUNK_SIZE = 8192`. -/
def CHUNK_SIZE : Nat := 8192

/-- Constant from both source files: `DOWNLOAD_TIMEOUT = 300`. -/
def DOWNLOAD_TIMEOUT : Nat := 300

/-- Bucket constant `RAW_BUCKET_NAME` from both source files. -/
def RAW_BUCKET_NAME : String := "vflow-pipeline-to-upscale"

/-- Bucket constant `UPSCALED_BUCKET_NAME` from both source files. -/
def UPSCALED_BUCKET_NAME : String := "vflow-pipeline-upscaled"

/-- Python `s.startswith(pre)`, computed on the character lists underlying
the strings (kernel-reducible, unlike `String.startsWith`). -/
def strStartsWith (s pre : String) : Bool := pre.data.isPrefixOf s.data

/-- Python `s.lower()` (ASCII case folding suffices for file extensions). -/
def lowerStr (s : String) : String := String.mk (s.data.map Char.toLower)

/-- Split a character list on a separator character (Python `str.split`). -/
def splitChar (sep : Char) : List Char → List (List Char)
  | [] => [[]]
  | c :: cs =>
    let r := splitChar sep cs
    if c = sep then [] :: r
    else
      match r with
      | [] => [[c]]
      | g :: gs => (c :: g) :: gs

/-- What the remote server does for one `requests.get`: whether the request
itself raises a `RequestException` (connection error / timeout), whether
`raise_for_status` raises (non-2xx status; `HTTPError` is a
`RequestException`, so both are folded into the same outcome by the
`except` clause of `download_video`), the `content-length` and
`content-type` headers, and the byte chunks yielded by `iter_content`.
An absent or empty `content-length` header is `none` (the Python guard
`if content_length and ...` skips falsy values). -/
structure Response where
  request_exception : Bool
  status_error : Bool
  exc_msg : String
  content_length : Option Nat
  content_type : String
  chunks : List (List Nat)
deriving DecidableEq, Repr

/-- Outcome of `download_video`: normal return, or one of the exceptions the
Python function can raise.  `tooLargeDeclared` and `tooLargeStream` are the
two `VideoProcessingError`s raised for the size cap; `transferFailed` is the
`VideoProcessingError` wrapping a `requests` exception. -/
inductive DlOutcome where
  | success
  | tooLargeDeclared (declared : Nat)
  | tooLargeStream
  | transferFailed (cause : String)
deriving DecidableEq, Repr

/-- Result of `download_video`: the outcome, the number of bytes written to
the destination file when control leaves the function, and the warnings
logged (the content-type warning). -/
structure DlResult where
  outcome : DlOutcome
  size : Nat
  warnings : List String
deriving DecidableEq, Repr

/-- The streaming loop of `download_video` (`for chunk in
response.iter_content(...)`): an empty chunk is skipped (`if chunk:`),
otherwise the chunk is written, the running total incremented, and only
then compared against `MAX_FILE_SIZE`; exceeding it raises, i.e. returns
`(true, size)` with the offending chunk already written.  Returns
`(aborted, bytes written)`. -/
def downloadLoop : List (List Nat) → Nat → Bool × Nat
  | [], size => (false, size)
  | c :: rest, size =>
    if c.isEmpty then downloadLoop rest size
    else
      let size' := size + c.length
      if MAX_FILE_SIZE < size' then (true, size')
      else downloadLoop rest size'

/-- The body of `download_video` after `raise_for_status` has passed: the
declared-length check, the content-type warning, then the streaming loop.
Mirrors lines 51-64 of `src/main.py` (= lines 57-73 of
`src/improved_main.py`). -/
def downloadStream (r : Response) : DlResult :=
  let warn :=
    if strStartsWith r.content_type "video/" then []
    else ["Unexpected content type: " ++ r.content_type]
  let res := downloadLoop r.chunks 0
  if res.1 then ⟨.tooLargeStream, res.2, warn⟩
  else ⟨.success, res.2, warn⟩

/-- The function `download_video(source_url, temp_file_path)` common to both
source files.  A `RequestException` from `requests.get` or from
`raise_for_status` is caught and wrapped as `transferFailed`; a declared
`content-length` above `MAX_FILE_SIZE` raises before the destination file
is opened, so zero bytes are written; otherwise the response is streamed.
Instead of writing to `temp_file_path`, the model reports the byte count
written. -/
def download_video (source_url : String) (r : Response) : DlResult :=
  if r.request_exception then ⟨.transferFailed r.exc_msg, 0, []⟩
  else if r.status_error then ⟨.transferFailed r.exc_msg, 0, []⟩
  else
    match r.content_length with
    | some n =>
      if MAX_FILE_SIZE < n then ⟨.tooLargeDeclared n, 0, []⟩
      else downloadStream r
    | none => downloadStream r

/-- The incoming HTTP request as the handler sees it: `request.is_json` and
the value of `request.get_json()` — `none` for JSON null, otherwise a JSON
object modelled as an association list of string fields. -/
structure VRequest where
  is_json : Bool
  body : Option (List (String × String))
deriving DecidableEq, Repr

/-- Dictionary lookup, modelling `"sourceUrl" in request_json` /
`request_json["sourceUrl"]`. -/
def lookupField : List (String × String) → String → Option String
  | [], _ => none
  | (k, v) :: rest, key => if k = key then some v else lookupField rest key

/-- The function `validate_request` common to both source files: rejects
non-JSON requests, falsy or `sourceUrl`-less bodies, and URLs whose scheme
is not `http`/`https`; `ValueError` messages become `Except.error`
strings. -/
def validate_request (r : VRequest) : Except String (List (String × String)) :=
  if r.is_json = false then .error "Request must be JSON"
  else
    match r.body with
    | none => .error "Missing required 'sourceUrl' in request body"
    | some body =>
      if body.isEmpty then .error "Missing required 'sourceUrl' in request body"
      else
        match lookupField body "sourceUrl" with
        | none => .error "Missing required 'sourceUrl' in request body"
        | some url =>
          if strStartsWith url "http://" || strStartsWith url "https://" then .ok body
          else .error "Invalid URL format"

/-- Last nonempty `/`-separated segment of a string: `Path(s).name` for the
URL strings the handler feeds it (pathlib ignores duplicate and trailing
slashes when taking the final component). -/
def pathName (s : String) : String :=
  String.mk (((splitChar '/' s.data).filter (fun seg => seg.isEmpty = false)).getLastD [])

/-- The handler's `Path(source_url).name or "video.mp4"`. -/
def original_filename_of (source_url : String) : String :=
  let n := pathName source_url
  if n = "" then "video.mp4" else n

/-- Index of the last `.` in a character list, if any (Python `str.rfind`). -/
def rfindDot : List Char → Option Nat
  | [] => none
  | c :: cs =>
    match rfindDot cs with
    | some i => some (i + 1)
    | none => if c = '.' then some 0 else none

/-- The handler's `Path(original_filename).suffix`: the substring from the
last dot, provided that dot is neither the first nor the last character
(pathlib's rule). -/
def suffixOf (name : String) : String :=
  match rfindDot name.toList with
  | some i =>
    if 0 < i ∧ i < name.toList.length - 1 then String.mk (name.toList.drop i) else ""
  | none => ""

/-- The handler's `Path(original_filename).stem`: the part before the
suffix. -/
def stemOf (name : String) : String :=
  match rfindDot name.toList with
  | some i =>
    if 0 < i ∧ i < name.toList.length - 1 then String.mk (name.toList.take i) else name
  | none => name

/-- Observable side effects of one handler invocation: scratch-file
creation (`tempfile.NamedTemporaryFile`), the outbound `requests.get`, a
storage upload attempt (`upload_to_gcs`), a storage download (event
ingress), and the two outcomes of an `os.unlink` attempt during cleanup. -/
inductive Ev where
  | tempCreate (path : String)
  | netGet (url : String)
  | upload (bucket : String) (blob : String)
  | storageDownload (bucket : String) (blob : String)
  | unlinkOk (path : String)
  | unlinkFail (path : String)
deriving DecidableEq, Repr

/-- The exceptions the orchestrated sequence can raise into the handler's
`try`: `ValueError`, `VideoProcessingError`, and any other exception. -/
inductive Exc where
  | valueErr (msg : String)
  | vpe (msg : String)
  | other (msg : String)
deriving DecidableEq, Repr

/-- The data a successful run returns: `raw_gcs_url`, `upscaled_gcs_url`
and `upscaled_filename`. -/
structure Success where
  raw_gcs_url : String
  upscaled_gcs_url : String
  upscaled_filename : String
deriving DecidableEq, Repr

/-- How `download_video`'s outcome surfaces in the handler: the three
`VideoProcessingError` messages raised by the source. -/
def dlExc : DlOutcome → Option Exc
  | .success => none
  | .tooLargeDeclared n => some (.vpe ("File too large: " ++ toString n ++ " bytes"))
  | .tooLargeStream => some (.vpe "File size exceeds limit during download")
  | .transferFailed cause => some (.vpe ("Failed to download video: " ++ cause))

/-- The orchestrated sequence after the two scratch files exist:
download → upload raw → transform → upload upscaled → trigger.  The
environment supplies whether each upload raises (`upload_to_gcs` wraps any
exception in `VideoProcessingError "Failed to upload to GCS: ..."`) and
whether the transform stage raises (an exception that is neither
`ValueError` nor `VideoProcessingError`).  Returns the result together
with the network/storage events, in order. -/
def pipelineBody (url : String) (resp : Response) (name upName : String)
    (upRawFault upUpFault transFault : Option String) :
    Except Exc Success × List Ev :=
  let dl := download_video url resp
  let evs := [Ev.netGet url]
  match dlExc dl.outcome with
  | some ex => (.error ex, evs)
  | none =>
    let evs := evs ++ [Ev.upload RAW_BUCKET_NAME name]
    match upRawFault with
    | some cause => (.error (.vpe ("Failed to upload to GCS: " ++ cause)), evs)
    | none =>
      let rawUrl := "gs://" ++ RAW_BUCKET_NAME ++ "/" ++ name
      match transFault with
      | some m => (.error (.other m), evs)
      | none =>
        let evs := evs ++ [Ev.upload UPSCALED_BUCKET_NAME upName]
        match upUpFault with
        | some cause => (.error (.vpe ("Failed to upload to GCS: " ++ cause)), evs)
        | none =>
          (.ok ⟨rawUrl, "gs://" ++ UPSCALED_BUCKET_NAME ++ "/" ++ upName, upName⟩, evs)

instance {ε α : Type} [DecidableEq ε] [DecidableEq α] : DecidableEq (Except ε α) := fun x y =>
  match x, y with
  | .ok a, .ok b =>
    if h : a = b then .isTrue (by rw [h]) else .isFalse (fun hh => h (Except.ok.inj hh))
  | .ok _, .error _ => .isFalse (fun hh => nomatch hh)
  | .error _, .ok _ => .isFalse (fun hh => nomatch hh)
  | .error a, .error b =>
    if h : a = b then .isTrue (by rw [h]) else .isFalse (fun hh => h (Except.error.inj hh))

/-- Result of the handler's `try` block: the value or exception, the event
trace, and the scratch paths that were assigned (and hence exist and are
candidates for cleanup). -/
structure PipeResult where
  result : Except Exc Success
  events : List Ev
  tempPaths : List String
deriving DecidableEq, Repr

/-- The `try` block of `upscale_video`, shared by both variants (the
variants differ only in their `except` clauses; the transform stage of
either variant is represented by `transFault`): validation, filename
derivation, creation of the two scratch files, then `pipelineBody`.
A `ValueError` from validation escapes before any scratch file, network
or storage activity. -/
def pipeline (req : VRequest) (resp : Response)
    (upRawFault upUpFault transFault : Option String) : PipeResult :=
  match validate_request req with
  | .error m => ⟨.error (.valueErr m), [], []⟩
  | .ok body =>
    let url := (lookupField body "sourceUrl").getD ""
    let name := original_filename_of url
    let ext := suffixOf name
    let upName := stemOf name ++ "_upscaled" ++ ext
    let p1 := "/tmp/raw" ++ ext
    let p2 := "/tmp/upscaled" ++ ext
    let pe := pipelineBody url resp name upName upRawFault upUpFault transFault
    ⟨pe.1, Ev.tempCreate p1 :: Ev.tempCreate p2 :: pe.2, [p1, p2]⟩

/-- The `finally` block common to both variants: for each assigned scratch
path, in order, attempt `os.unlink`; an `OSError` (the path's flag) is
logged and swallowed, leaving the file in place.  Returns the unlink
events and the paths still existing afterwards. -/
def cleanup : List (String × Bool) → List Ev × List String
  | [] => ([], [])
  | (p, fail) :: rest =>
    let r := cleanup rest
    if fail then (Ev.unlinkFail p :: r.1, p :: r.2)
    else (Ev.unlinkOk p :: r.1, r.2)

/-- The JSON response plus HTTP status code returned by a handler. -/
structure HttpResponse where
  status : String
  message : String
  code : Nat
  original_file : Option String
  upscaled_file : Option String
  filename : Option String
deriving DecidableEq, Repr

/-- Everything outside the handler that determines one invocation: the
request, the remote server's behaviour, whether each of the two uploads
raises, whether the transform stage raises, and whether `os.unlink` fails
for each of the two scratch paths. -/
structure Env where
  req : VRequest
  resp : Response
  upload_raw_fault : Option String
  upload_up_fault : Option String
  trans_fault : Option String
  unlink_fail1 : Bool
  unlink_fail2 : Bool
deriving DecidableEq, Repr

namespace Main

/-- The `except` clauses of `src/main.py`'s `upscale_video`: `ValueError`
and `VideoProcessingError` share one clause returning 400 with the bare
exception message; any other exception returns 500 with the generic
text. -/
def classify : Except Exc Success → HttpResponse
  | .ok s => ⟨"success", "Video upscaling completed successfully", 200,
      some s.raw_gcs_url, some s.upscaled_gcs_url, some s.upscaled_filename⟩
  | .error (.valueErr m) => ⟨"error", m, 400, none, none, none⟩
  | .error (.vpe m) => ⟨"error", m, 400, none, none, none⟩
  | .error (.other _) => ⟨"error", "Internal server error", 500, none, none, none⟩

/-- The handler `upscale_video` of `src/main.py`: run the `try` block,
classify the outcome, then run the `finally` cleanup.  Returns the HTTP
response, the full event trace, and the scratch paths still existing when
the invocation ends. -/
def upscale_video (e : Env) : HttpResponse × List Ev × List String :=
  let pr := pipeline e.req e.resp e.upload_raw_fault e.upload_up_fault e.trans_fault
  let c := cleanup (pr.tempPaths.zip [e.unlink_fail1, e.unlink_fail2])
  (classify pr.result, pr.events ++ c.1, c.2)

end Main

namespace Improved

/-- The `except` clauses of `src/improved_main.py`'s `upscale_video`:
`ValueError` returns 400 with an "Invalid request: " prefix;
`VideoProcessingError` returns 500 with a "Processing failed: " prefix;
any other exception returns 500 with the generic text. -/
def classify : Except Exc Success → HttpResponse
  | .ok s => ⟨"success", "Video upscaling completed successfully", 200,
      some s.raw_gcs_url, some s.upscaled_gcs_url, some s.upscaled_filename⟩
  | .error (.valueErr m) => ⟨"error", "Invalid request: " ++ m, 400, none, none, none⟩
  | .error (.vpe m) => ⟨"error", "Processing failed: " ++ m, 500, none, none, none⟩
  | .error (.other _) => ⟨"error", "Internal server error", 500, none, none, none⟩

/-- The handler `upscale_video` of `src/improved_main.py`; its `try` and
`finally` blocks are the same as `src/main.py`'s, only the `except`
clauses differ. -/
def upscale_video (e : Env) : HttpResponse × List Ev × List String :=
  let pr := pipeline e.req e.resp e.upload_raw_fault e.upload_up_fault e.trans_fault
  let c := cleanup (pr.tempPaths.zip [e.unlink_fail1, e.unlink_fail2])
  (classify pr.result, pr.events ++ c.1, c.2)

/-- The placeholder transform `upscale_video_ai` of `src/improved_main.py`:
`shutil.copy2(input_path, output_path)` over a local filesystem modelled as
a map from path to file bytes; copying a missing source fails (`none`),
otherwise the destination is overwritten with the source's bytes. -/
def upscale_video_ai (fs : String → Option (List Nat)) (input_path output_path : String) :
    Option (String → Option (List Nat)) :=
  match fs input_path with
  | none => none
  | some data => some (fun p => if p = output_path then some data else fs p)

end Improved

/-- Modelled from the spec: the storage-event ingress payload (`bucket` and
`name` fields of a storage-change notification, plus the declared object
size when available) — the event-ingress handler's code is not under
`src/`, only the spec describes it (§4.1 checks 4-5, §6 "Event ingress",
scenario C). -/
structure EventPayload where
  bucket : String
  name : String
  size : Option Nat
deriving DecidableEq, Repr

/-- Modelled from the spec: the "fixed allow-set of video container
extensions" for event ingress (§4.1 check 4); the spec does not enumerate
the set, so a representative set of video container extensions is used. -/
def VIDEO_EXTENSIONS : List String := [".mp4", ".avi", ".mov", ".mkv", ".webm"]

/-- Modelled from the spec: the maximum declared size for storage-event
transfers, "2000 MB for storage-event transfers" (§4.2). -/
def EVENT_MAX_FILE_SIZE : Nat := 2000 * 1024 * 1024

/-- Modelled from the spec: the storage-event ingress handler, absent from
`src/`.  Per §4.1 and §6: an object name whose extension (matched
case-insensitively) is outside the allow-set short-circuits with a
"Skipped: ..." plain status string, not an error, before any storage
operation; otherwise the declared size is checked against the event
maximum, and the object is fetched from storage. -/
def handle_event (ev : EventPayload) : String × List Ev :=
  let ext := suffixOf ev.name
  if lowerStr ext ∈ VIDEO_EXTENSIONS then
    match ev.size with
    | some n =>
      if EVENT_MAX_FILE_SIZE < n then
        ("Error: File too large: " ++ toString n ++ " bytes", [])
      else ("Function finished successfully.", [Ev.storageDownload ev.bucket ev.name])
    | none => ("Function finished successfully.", [Ev.storageDownload ev.bucket ev.name])
  else
    ("Skipped: unsupported file type: " ++ ext, [])

/-- Total number of bytes in a list of chunks. -/
def chunkBytes (l : List (List Nat)) : Nat := (l.map List.length).sum

theorem downloadLoop_append (l1 l2 : List (List Nat)) (s : Nat) :
    downloadLoop (l1 ++ l2) s =
      if (downloadLoop l1 s).1 then downloadLoop l1 s
      else downloadLoop l2 (downloadLoop l1 s).2 := by
  induction l1 generalizing s with
  | nil => simp [downloadLoop]
  | cons c rest ih =>
    by_cases hc : c.isEmpty = true
    · simp [downloadLoop, hc, ih]
    · by_cases hm : MAX_FILE_SIZE < s + c.length
      · simp [downloadLoop, hc, hm]
      · simp [downloadLoop, hc, hm, ih]

theorem downloadLoop_replicate (n : Nat) (c : List Nat) :
    ∀ s, c.isEmpty = false → s + n * c.length ≤ MAX_FILE_SIZE →
    downloadLoop (List.replicate n c) s = (false, s + n * c.length) := by
  induction n with
  | zero => intro s _ _; simp [downloadLoop]
  | succ k ih =>
    intro s hc h
    have hmul : (k + 1) * c.length = c.length + k * c.length := by ring
    have hnm : ¬ MAX_FILE_SIZE < s + c.length := by
      rw [hmul] at h; omega
    rw [List.replicate_succ]
    simp only [downloadLoop, hc, Bool.false_eq_true, if_false, if_neg hnm]
    rw [ih (s + c.length) hc (by rw [hmul] at h; omega)]
    rw [hmul]; congr 1; ring

theorem downloadLoop_size_le (l : List (List Nat)) :
    ∀ s, (∀ c ∈ l, c.length ≤ CHUNK_SIZE) → s ≤ MAX_FILE_SIZE →
    (downloadLoop l s).2 ≤ MAX_FILE_SIZE + CHUNK_SIZE := by
  induction l with
  | nil => intro s _ hs; simp [downloadLoop]; omega
  | cons c rest ih =>
    intro s hl hs
    have hlen : c.length ≤ CHUNK_SIZE := hl c (List.mem_cons_self c rest)
    have hrest : ∀ x ∈ rest, x.length ≤ CHUNK_SIZE := fun x hx => hl x (List.mem_cons_of_mem c hx)
    by_cases hc : c.isEmpty = true
    · simp only [downloadLoop, hc, if_true]
      exact ih s hrest hs
    · by_cases hm : MAX_FILE_SIZE < s + c.length
      · simp only [downloadLoop, hc, Bool.false_eq_true, if_false, if_pos hm]
        omega
      · simp only [downloadLoop, hc, Bool.false_eq_true, if_false, if_neg hm]
        exact ih (s + c.length) hrest (by omega)

theorem downloadLoop_complete (l : List (List Nat)) :
    ∀ s, s + chunkBytes l ≤ MAX_FILE_SIZE →
    downloadLoop l s = (false, s + chunkBytes l) := by
  induction l with
  | nil => intro s _; simp [downloadLoop, chunkBytes]
  | cons c rest ih =>
    intro s h
    have hcb : chunkBytes (c :: rest) = c.length + chunkBytes rest := by
      simp [chunkBytes]
    by_cases hc : c.isEmpty = true
    · have hnil : c = [] := by cases c <;> simp_all
      subst hnil
      simp only [downloadLoop, List.isEmpty_nil, if_true]
      rw [ih s (by simp [hcb] at h ⊢; simpa using h)]
      simp [hcb]
    · have hnm : ¬ MAX_FILE_SIZE < s + c.length := by rw [hcb] at h; omega
      simp only [downloadLoop, hc, Bool.false_eq_true, if_false, if_neg hnm]
      rw [ih (s + c.length) (by rw [hcb] at h; omega)]
      rw [hcb]; congr 1; ring

theorem downloadLoop_abort (l : List (List Nat)) :
    ∀ s, s ≤ MAX_FILE_SIZE → MAX_FILE_SIZE < s + chunkBytes l →
    (downloadLoop l s).1 = true ∧ MAX_FILE_SIZE < (downloadLoop l s).2 ∧
    ∃ p c rest, l = p ++ c :: rest ∧ s + chunkBytes p ≤ MAX_FILE_SIZE ∧
      (downloadLoop l s).2 = s + chunkBytes p + c.length := by
  induction l with
  | nil =>
    intro s hs hgt
    exfalso
    simp [chunkBytes] at hgt
    omega
  | cons c rest ih =>
    intro s hs hgt
    have hcb : chunkBytes (c :: rest) = c.length + chunkBytes rest := by
      simp [chunkBytes]
    by_cases hc : c.isEmpty = true
    · have hnil : c = [] := by cases c <;> simp_all
      subst hnil
      have hgt' : MAX_FILE_SIZE < s + chunkBytes rest := by rw [hcb] at hgt; simpa using hgt
      obtain ⟨h1, hlt, p, c', r', heq, hle, hval⟩ := ih s hs hgt'
      refine ⟨?_, ?_, [] :: p, c', r', by rw [heq]; simp, ?_, ?_⟩
      · simp only [downloadLoop, List.isEmpty_nil, if_true]; exact h1
      · simp only [downloadLoop, List.isEmpty_nil, if_true]; exact hlt
      · simpa [chunkBytes] using hle
      · simp only [downloadLoop, List.isEmpty_nil, if_true]
        rw [hval]; simp [chunkBytes]
    · by_cases hm : MAX_FILE_SIZE < s + c.length
      · refine ⟨?_, ?_, [], c, rest, rfl, by simpa [chunkBytes] using hs, ?_⟩
        · simp [downloadLoop, hc, hm]
        · simp only [downloadLoop, hc, Bool.false_eq_true, if_false, if_pos hm]; exact hm
        · simp [downloadLoop, hc, hm, chunkBytes]
      · have hs' : s + c.length ≤ MAX_FILE_SIZE := by omega
        have hgt' : MAX_FILE_SIZE < s + c.length + chunkBytes rest := by
          rw [hcb] at hgt; omega
        obtain ⟨h1, hlt, p, c', r', heq, hle, hval⟩ := ih (s + c.length) hs' hgt'
        refine ⟨?_, ?_, c :: p, c', r', by rw [heq]; simp, ?_, ?_⟩
        · simp only [downloadLoop, hc, Bool.false_eq_true, if_false, if_neg hm]; exact h1
        · simp only [downloadLoop, hc, Bool.false_eq_true, if_false, if_neg hm]; exact hlt
        · have : chunkBytes (c :: p) = c.length + chunkBytes p := by simp [chunkBytes]
          omega
        · simp only [downloadLoop, hc, Bool.false_eq_true, if_false, if_neg hm]
          rw [hval]
          have : chunkBytes (c :: p) = c.length + chunkBytes p := by simp [chunkBytes]
          omega

theorem download_video_stream (u : String) (r : Response)
    (h1 : r.request_exception = false) (h2 : r.status_error = false)
    (h3 : ∀ n, r.content_length = some n → n ≤ MAX_FILE_SIZE) :
    download_video u r = downloadStream r := by
  cases hcl : r.content_length with
  | none => simp [download_video, h1, h2, hcl]
  | some n =>
    have := h3 n hcl
    simp [download_video, h1, h2, hcl, Nat.not_lt.mpr this]

theorem downloadStream_size (r : Response) :
    (downloadStream r).size = (downloadLoop r.chunks 0).2 := by
  unfold downloadStream
  by_cases hb : (downloadLoop r.chunks 0).1 = true <;> simp [hb]

theorem downloadStream_outcome (r : Response) :
    (downloadStream r).outcome =
      if (downloadLoop r.chunks 0).1 = true then DlOutcome.tooLargeStream
      else DlOutcome.success := by
  unfold downloadStream
  by_cases hb : (downloadLoop r.chunks 0).1 = true <;> simp [hb]

/-- Stream for the C1 counterexample: 64000 full 8 KiB chunks (exactly
`MAX_FILE_SIZE` bytes) followed by one more 1-byte chunk. -/
def respC1 : Response :=
  ⟨false, false, "", none, "video/mp4",
    List.replicate 64000 (List.replicate 8192 0) ++ [[0]]⟩

theorem respC1_loop : downloadLoop respC1.chunks 0 = (true, 524288001) := by
  show downloadLoop (List.replicate 64000 (List.replicate 8192 (0 : Nat)) ++ [[0]]) 0 = _
  have hne : (List.replicate 8192 (0 : Nat)).isEmpty = false := by
    show (List.replicate (8191 + 1) (0 : Nat)).isEmpty = false
    rw [List.replicate_succ]
    rfl
  have hlen : (List.replicate 8192 (0 : Nat)).length = 8192 := List.length_replicate 8192 0
  have hrep : downloadLoop (List.replicate 64000 (List.replicate 8192 (0 : Nat))) 0 =
      (false, 524288000) := by
    have h := downloadLoop_replicate 64000 (List.replicate 8192 (0 : Nat)) 0 hne
      (by rw [hlen]; decide)
    rw [hlen] at h
    exact h
  rw [downloadLoop_append, hrep]
  decide

/-- C1 counterexample: on the stream of `respC1` the code writes each chunk
to the destination before comparing the running total with
`MAX_FILE_SIZE` (`f.write(chunk)` precedes the size check in both source
files), so when it aborts, `MAX_FILE_SIZE + 1` bytes have been written —
the claimed invariant "bytes written is at most MAX_FILE_SIZE after every
chunk" is violated at the offending chunk. -/
theorem C1_counterexample :
    (download_video "https://example.com/clip.mp4" respC1).size = MAX_FILE_SIZE + 1 ∧
    MAX_FILE_SIZE < (download_video "https://example.com/clip.mp4" respC1).size ∧
    (download_video "https://example.com/clip.mp4" respC1).outcome =
      DlOutcome.tooLargeStream := by
  have hnd : download_video "https://example.com/clip.mp4" respC1 = downloadStream respC1 :=
    download_video_stream "https://example.com/clip.mp4" respC1 rfl rfl
      (fun _ hn => nomatch hn)
  have hsz : (download_video "https://example.com/clip.mp4" respC1).size = 524288001 := by
    rw [hnd, downloadStream_size, respC1_loop]
  have ho : (download_video "https://example.com/clip.mp4" respC1).outcome =
      DlOutcome.tooLargeStream := by
    rw [hnd, downloadStream_outcome, respC1_loop]
    decide
  exact ⟨by rw [hsz]; decide, by rw [hsz]; decide, ho⟩

/-- C1 (amended): after processing any chunk the running total of bytes
written can exceed `MAX_FILE_SIZE` by up to the size of the offending
chunk (which is written before the size check); with every chunk at most
`CHUNK_SIZE` bytes — the chunk size `iter_content` is asked for — the
bytes written never exceed `MAX_FILE_SIZE + CHUNK_SIZE`.  The final
`size` is the largest running total of the transfer, so this bounds every
point of the stream. -/
theorem C1_bytes_written_bound (u : String) (r : Response)
    (h : ∀ c ∈ r.chunks, c.length ≤ CHUNK_SIZE) :
    (download_video u r).size ≤ MAX_FILE_SIZE + CHUNK_SIZE := by
  have hstream : (downloadStream r).size ≤ MAX_FILE_SIZE + CHUNK_SIZE := by
    rw [downloadStream_size]
    exact downloadLoop_size_le r.chunks 0 h (Nat.zero_le _)
  cases hre : r.request_exception with
  | true => simp [download_video, hre]
  | false =>
    cases hse : r.status_error with
    | true => simp [download_video, hre, hse]
    | false =>
      cases hcl : r.content_length with
      | none => simpa [download_video, hre, hse, hcl] using hstream
      | some n =>
        by_cases hn : MAX_FILE_SIZE < n
        · simp [download_video, hre, hse, hcl, hn]
        · simpa [download_video, hre, hse, hcl, hn] using hstream

/-- Concrete stream for the C1 witness. -/
def respC1w : Response := ⟨false, false, "", none, "video/mp4", [[1, 2, 3], [4, 5]]⟩

theorem C1_bytes_written_bound_witness :
    (download_video "https://example.com/a.mp4" respC1w).size ≤
      MAX_FILE_SIZE + CHUNK_SIZE :=
  C1_bytes_written_bound "https://example.com/a.mp4" respC1w (by decide)

/-- C2: a declared `content-length` above `MAX_FILE_SIZE` makes
`download_video` fail before opening the destination — the result is the
`tooLargeDeclared` outcome (the `VideoProcessingError` "File too large:
... bytes" in the handler) with zero bytes written. -/
theorem C2_declared_too_large_rejected (u : String) (r : Response) (n : Nat)
    (h1 : r.request_exception = false) (h2 : r.status_error = false)
    (h3 : r.content_length = some n) (h4 : MAX_FILE_SIZE < n) :
    download_video u r = ⟨.tooLargeDeclared n, 0, []⟩ ∧
    dlExc (download_video u r).outcome =
      some (.vpe ("File too large: " ++ toString n ++ " bytes")) := by
  have hd : download_video u r = ⟨.tooLargeDeclared n, 0, []⟩ := by
    simp [download_video, h1, h2, h3, h4]
  exact ⟨hd, by rw [hd]; rfl⟩

/-- Response declaring 600 MB for the C2 witness (scenario D of the spec). -/
def respC2w : Response := ⟨false, false, "", some 629145600, "video/mp4", [[1]]⟩

theorem C2_declared_too_large_rejected_witness :
    download_video "https://example.com/clip.mp4" respC2w =
      ⟨.tooLargeDeclared 629145600, 0, []⟩ :=
  (C2_declared_too_large_rejected "https://example.com/clip.mp4" respC2w 629145600
    rfl rfl rfl (by norm_num [MAX_FILE_SIZE])).1

/-- C3: when the streamed bytes exceed `MAX_FILE_SIZE` mid-stream the
transfer aborts at the first offending chunk — the result is the
`tooLargeStream` outcome (the `VideoProcessingError` "File size exceeds
limit during download"), the bytes written are those of the processed
prefix plus the offending chunk and nothing further, and more than
`MAX_FILE_SIZE` bytes are on disk, i.e. a nonempty partial file is left
behind (the handler's `finally` block, not `download_video`, removes
it). -/
theorem C3_midstream_abort (u : String) (r : Response)
    (h1 : r.request_exception = false) (h2 : r.status_error = false)
    (h3 : ∀ n, r.content_length = some n → n ≤ MAX_FILE_SIZE)
    (h4 : MAX_FILE_SIZE < chunkBytes r.chunks) :
    (download_video u r).outcome = DlOutcome.tooLargeStream ∧
    dlExc (download_video u r).outcome =
      some (.vpe "File size exceeds limit during download") ∧
    MAX_FILE_SIZE < (download_video u r).size ∧
    ∃ p c rest, r.chunks = p ++ c :: rest ∧ chunkBytes p ≤ MAX_FILE_SIZE ∧
      (download_video u r).size = chunkBytes p + c.length := by
  rw [download_video_stream u r h1 h2 h3]
  obtain ⟨hab, hlt, p, c, rest, heq, hle, hval⟩ :=
    downloadLoop_abort r.chunks 0 (Nat.zero_le _) (by simpa using h4)
  have ho : (downloadStream r).outcome = DlOutcome.tooLargeStream := by
    unfold downloadStream; simp [hab]
  refine ⟨ho, by rw [ho]; rfl, ?_, p, c, rest, heq, by simpa using hle, ?_⟩
  · rw [downloadStream_size]; exact hlt
  · rw [downloadStream_size, hval]; simp

/-- Stream of a single oversized chunk for the C3 witness. -/
def respC3w : Response :=
  ⟨false, false, "", none, "video/mp4", [List.replicate 524288001 0]⟩

theorem C3_midstream_abort_witness :
    (download_video "https://example.com/clip.mp4" respC3w).outcome =
      DlOutcome.tooLargeStream :=
  (C3_midstream_abort "https://example.com/clip.mp4" respC3w rfl rfl
    (fun _ hn => nomatch hn)
    (by
      show MAX_FILE_SIZE < chunkBytes [List.replicate 524288001 (0 : Nat)]
      have h : chunkBytes [List.replicate 524288001 (0 : Nat)] = 524288001 := by
        unfold chunkBytes
        rw [List.map_cons, List.map_nil, List.length_replicate, List.sum_cons, List.sum_nil]
        rfl
      rw [h]
      decide)).1

/-- C8: a content type without the `video/` prefix is only logged — with a
healthy response within the size cap the transfer completes with
`success` and the full byte count, a warning is recorded, and the outcome
and size are unchanged under any other content type. -/
theorem C8_content_type_warning_only (u : String) (r : Response)
    (h1 : r.request_exception = false) (h2 : r.status_error = false)
    (h3 : ∀ n, r.content_length = some n → n ≤ MAX_FILE_SIZE)
    (h4 : chunkBytes r.chunks ≤ MAX_FILE_SIZE)
    (h5 : strStartsWith r.content_type "video/" = false) :
    (download_video u r).outcome = DlOutcome.success ∧
    (download_video u r).size = chunkBytes r.chunks ∧
    (download_video u r).warnings = ["Unexpected content type: " ++ r.content_type] ∧
    ∀ ct, (download_video u { r with content_type := ct }).outcome =
        (download_video u r).outcome ∧
      (download_video u { r with content_type := ct }).size =
        (download_video u r).size := by
  have hloop := downloadLoop_complete r.chunks 0 (by simpa using h4)
  have hstream : downloadStream r =
      ⟨DlOutcome.success, chunkBytes r.chunks,
        ["Unexpected content type: " ++ r.content_type]⟩ := by
    unfold downloadStream
    simp [hloop, h5]
  have hmain : download_video u r = downloadStream r :=
    download_video_stream u r h1 h2 h3
  refine ⟨by rw [hmain, hstream], by rw [hmain, hstream], by rw [hmain, hstream], ?_⟩
  intro ct
  have hmod : download_video u { r with content_type := ct } =
      downloadStream { r with content_type := ct } :=
    download_video_stream u _ (by simpa using h1) (by simpa using h2) (by simpa using h3)
  have hsz : (downloadStream { r with content_type := ct }).size = chunkBytes r.chunks := by
    rw [downloadStream_size]
    show (downloadLoop r.chunks 0).2 = chunkBytes r.chunks
    rw [hloop]
    simp
  have hout : (downloadStream { r with content_type := ct }).outcome =
      DlOutcome.success := by
    unfold downloadStream
    show (if (downloadLoop r.chunks 0).1 = true then _ else _ : DlResult).outcome = _
    rw [hloop]
    rfl
  constructor
  · rw [hmod, hout, hmain, hstream]
  · rw [hmod, hsz, hmain, hstream]

/-- Non-video response within the size cap for the C8 witness. -/
def respC8w : Response := ⟨false, false, "", none, "text/html", [[9, 9, 9, 9, 9]]⟩

theorem C8_content_type_warning_only_witness :
    (download_video "https://example.com/a.mp4" respC8w).outcome = DlOutcome.success :=
  (C8_content_type_warning_only "https://example.com/a.mp4" respC8w rfl rfl
    (fun _ hn => nomatch hn) (by decide) (by decide)).1

theorem pipeline_validation_error (req : VRequest) (resp : Response)
    (a b c : Option String) (m : String) (hv : validate_request req = .error m) :
    pipeline req resp a b c = ⟨.error (.valueErr m), [], []⟩ := by
  unfold pipeline
  rw [hv]

theorem pipeline_tempPaths_shape (req : VRequest) (resp : Response) (a b c : Option String) :
    (pipeline req resp a b c).tempPaths = [] ∨
    ∃ x y, (pipeline req resp a b c).tempPaths = [x, y] := by
  unfold pipeline
  cases hv : validate_request req with
  | error m => exact Or.inl rfl
  | ok body => exact Or.inr ⟨_, _, rfl⟩

theorem main_result (e : Env) :
    (Main.upscale_video e).1 =
      Main.classify (pipeline e.req e.resp e.upload_raw_fault e.upload_up_fault
        e.trans_fault).result := rfl

theorem improved_result (e : Env) :
    (Improved.upscale_video e).1 =
      Improved.classify (pipeline e.req e.resp e.upload_raw_fault e.upload_up_fault
        e.trans_fault).result := rfl

theorem main_events (e : Env) :
    (Main.upscale_video e).2.1 =
      (pipeline e.req e.resp e.upload_raw_fault e.upload_up_fault e.trans_fault).events ++
      (cleanup ((pipeline e.req e.resp e.upload_raw_fault e.upload_up_fault
        e.trans_fault).tempPaths.zip [e.unlink_fail1, e.unlink_fail2])).1 := rfl

theorem main_files (e : Env) :
    (Main.upscale_video e).2.2 =
      (cleanup ((pipeline e.req e.resp e.upload_raw_fault e.upload_up_fault
        e.trans_fault).tempPaths.zip [e.unlink_fail1, e.unlink_fail2])).2 := rfl

theorem improved_files (e : Env) :
    (Improved.upscale_video e).2.2 =
      (cleanup ((pipeline e.req e.resp e.upload_raw_fault e.upload_up_fault
        e.trans_fault).tempPaths.zip [e.unlink_fail1, e.unlink_fail2])).2 := rfl

theorem cleanup_all_ok (l : List (String × Bool)) (h : ∀ pb ∈ l, pb.2 = false) :
    (cleanup l).2 = [] := by
  induction l with
  | nil => rfl
  | cons pb rest ih =>
    obtain ⟨p, fl⟩ := pb
    have h2 : fl = false := h (p, fl) (List.mem_cons_self _ _)
    subst h2
    simp only [cleanup, Bool.false_eq_true, if_false]
    exact ih (fun x hx => h x (List.mem_cons_of_mem _ hx))

/-- C7: a non-JSON payload or one without `sourceUrl` is rejected by
`validate_request` with a `ValueError`, the handler answers 400 with that
message, and the invocation performs no scratch-file creation, network
request or storage operation (empty event trace); when the payload was
JSON, the message names the missing `sourceUrl` field. -/
theorem C7_validation_short_circuit (e : Env)
    (h : e.req.is_json = false ∨ e.req.body = none ∨
      ∃ b, e.req.body = some b ∧ lookupField b "sourceUrl" = none) :
    ∃ m, validate_request e.req = Except.error m ∧
      (Main.upscale_video e).1 = ⟨"error", m, 400, none, none, none⟩ ∧
      (Main.upscale_video e).2.1 = [] ∧
      (Main.upscale_video e).2.2 = [] ∧
      (e.req.is_json = true → m = "Missing required 'sourceUrl' in request body") := by
  have hval : ∃ m, validate_request e.req = .error m ∧
      (e.req.is_json = true → m = "Missing required 'sourceUrl' in request body") := by
    rcases h with h1 | h2 | ⟨b, hb, hl⟩
    · refine ⟨"Request must be JSON", by simp [validate_request, h1], ?_⟩
      intro hj; rw [hj] at h1; exact absurd h1 (by decide)
    · by_cases hj : e.req.is_json = true
      · refine ⟨"Missing required 'sourceUrl' in request body", ?_, fun _ => rfl⟩
        simp [validate_request, hj, h2]
      · have hj' : e.req.is_json = false := by revert hj; cases e.req.is_json <;> simp
        exact ⟨"Request must be JSON", by simp [validate_request, hj'], fun hc => absurd hc hj⟩
    · by_cases hj : e.req.is_json = true
      · refine ⟨"Missing required 'sourceUrl' in request body", ?_, fun _ => rfl⟩
        by_cases hbe : b.isEmpty
        · simp [validate_request, hj, hb, hbe]
        · simp [validate_request, hj, hb, hbe, hl]
      · have hj' : e.req.is_json = false := by revert hj; cases e.req.is_json <;> simp
        exact ⟨"Request must be JSON", by simp [validate_request, hj'], fun hc => absurd hc hj⟩
  obtain ⟨m, hv, hm⟩ := hval
  have hp : pipeline e.req e.resp e.upload_raw_fault e.upload_up_fault e.trans_fault =
      ⟨.error (.valueErr m), [], []⟩ :=
    pipeline_validation_error e.req e.resp e.upload_raw_fault e.upload_up_fault
      e.trans_fault m hv
  have hall : Main.upscale_video e = (⟨"error", m, 400, none, none, none⟩, [], []) := by
    unfold Main.upscale_video
    rw [hp]
    rfl
  exact ⟨m, hv, by rw [hall], by rw [hall], by rw [hall], hm⟩

/-- Request body with a wrong field name for the C7 witness. -/
def eC7w : Env :=
  ⟨⟨true, some [("url", "https://example.com/clip.mp4")]⟩,
   ⟨false, false, "", none, "", []⟩, none, none, none, false, false⟩

theorem C7_validation_short_circuit_witness :
    (Main.upscale_video eC7w).1.code = 400 ∧ (Main.upscale_video eC7w).2.1 = [] ∧
    (Main.upscale_video eC7w).1.message = "Missing required 'sourceUrl' in request body" := by
  obtain ⟨m, hv, hr, hev, hf, hm⟩ := C7_validation_short_circuit eC7w
    (Or.inr (Or.inr ⟨[("url", "https://example.com/clip.mp4")], rfl, rfl⟩))
  have hm' : m = "Missing required 'sourceUrl' in request body" := hm rfl
  subst hm'
  exact ⟨by rw [hr], hev, by rw [hr]⟩

/-- C6: the placeholder transform of `src/improved_main.py` is
`shutil.copy2`: after running it the output file holds exactly the input
file's bytes, and running it a second time on the same input/output pair
succeeds and again leaves the input's bytes in the output — byte-identical
output both times. -/
theorem C6_placeholder_copy (fs : String → Option (List Nat))
    (input output : String) (data : List Nat) (h : fs input = some data) :
    ∃ fs1, Improved.upscale_video_ai fs input output = some fs1 ∧
      fs1 output = some data ∧
      ∃ fs2, Improved.upscale_video_ai fs1 input output = some fs2 ∧
        fs2 output = some data := by
  refine ⟨fun p => if p = output then some data else fs p, ?_, ?_, ?_⟩
  · unfold Improved.upscale_video_ai; rw [h]
  · simp
  · have h1 : (fun p => if p = output then some data else fs p) input = some data := by
      by_cases hio : input = output
      · simp [hio]
      · simp [hio, h]
    refine ⟨fun p => if p = output then some data
      else (fun q => if q = output then some data else fs q) p, ?_, ?_⟩
    · unfold Improved.upscale_video_ai; rw [h1]
    · simp

/-- Local filesystem with one video file for the C6 witness. -/
def fsC6w : String → Option (List Nat) :=
  fun p => if p = "in.mp4" then some [3, 1, 4] else none

theorem C6_placeholder_copy_witness :
    ∃ fs1, Improved.upscale_video_ai fsC6w "in.mp4" "out.mp4" = some fs1 ∧
      fs1 "out.mp4" = some [3, 1, 4] ∧
      ∃ fs2, Improved.upscale_video_ai fs1 "in.mp4" "out.mp4" = some fs2 ∧
        fs2 "out.mp4" = some [3, 1, 4] :=
  C6_placeholder_copy fsC6w "in.mp4" "out.mp4" [3, 1, 4] (by decide)

/-- C9 (spec-modelled): an event whose object name has an extension outside
the video allow-set (matched case-insensitively) makes the handler
short-circuit with a "Skipped" plain status — not an error — and an empty
event trace, i.e. storage is never contacted. -/
theorem C9_event_unsupported_extension (ev : EventPayload)
    (h : lowerStr (suffixOf ev.name) ∉ VIDEO_EXTENSIONS) :
    handle_event ev = ("Skipped: unsupported file type: " ++ suffixOf ev.name, []) := by
  unfold handle_event
  simp [h]

theorem C9_event_unsupported_extension_witness :
    handle_event ⟨"vflow-pipeline-to-upscale", "photo.jpg", none⟩ =
      ("Skipped: unsupported file type: .jpg", []) := by
  rw [C9_event_unsupported_extension ⟨"vflow-pipeline-to-upscale", "photo.jpg", none⟩
    (by decide)]
  decide

/-- Environment for the C4 counterexample: a successful run where unlinking
the first scratch file raises `OSError`. -/
def eC4 : Env :=
  ⟨⟨true, some [("sourceUrl", "https://example.com/clip.mp4")]⟩,
   ⟨false, false, "", some 10, "video/mp4", [[1, 2, 3]]⟩, none, none, none, true, false⟩

/-- C4 counterexample: when `os.unlink` fails (an `OSError`, which the
`finally` block logs and swallows), the scratch file still exists after
the invocation — the claim's "afterwards neither scratch file path exists"
is violated — while the response stays the already-determined 200. -/
theorem C4_counterexample :
    (Main.upscale_video eC4).2.2 = ["/tmp/raw.mp4"] ∧
    (Main.upscale_video eC4).1.code = 200 := by decide

/-- C4 (amended): cleanup of both scratch paths is attempted on every exit
path (for each assigned path an unlink event is in the trace), a failure
of the deletion never changes the response (the response is independent of
the unlink-failure flags), and when both deletions succeed no scratch path
exists afterwards, in either handler variant. -/
theorem C4_cleanup_attempted (e : Env) :
    (e.unlink_fail1 = false → e.unlink_fail2 = false →
      (Main.upscale_video e).2.2 = [] ∧ (Improved.upscale_video e).2.2 = []) ∧
    (∀ f1 f2,
      (Main.upscale_video { e with unlink_fail1 := f1, unlink_fail2 := f2 }).1 =
        (Main.upscale_video e).1 ∧
      (Improved.upscale_video { e with unlink_fail1 := f1, unlink_fail2 := f2 }).1 =
        (Improved.upscale_video e).1) ∧
    (∀ p ∈ (pipeline e.req e.resp e.upload_raw_fault e.upload_up_fault
        e.trans_fault).tempPaths,
      Ev.unlinkOk p ∈ (Main.upscale_video e).2.1 ∨
      Ev.unlinkFail p ∈ (Main.upscale_video e).2.1) := by
  refine ⟨?_, ?_, ?_⟩
  · intro h1 h2
    constructor
    · rw [main_files, h1, h2]
      apply cleanup_all_ok
      intro pb hpb
      have h2' := (List.of_mem_zip hpb).2
      simp at h2'
      exact h2'
    · rw [improved_files, h1, h2]
      apply cleanup_all_ok
      intro pb hpb
      have h2' := (List.of_mem_zip hpb).2
      simp at h2'
      exact h2'
  · intro f1 f2
    exact ⟨rfl, rfl⟩
  · intro p hp
    rcases pipeline_tempPaths_shape e.req e.resp e.upload_raw_fault e.upload_up_fault
      e.trans_fault with hsh | ⟨x, y, hsh⟩
    · rw [hsh] at hp; cases hp
    · rw [hsh] at hp
      simp only [List.mem_cons, List.not_mem_nil, or_false] at hp
      rw [main_events, hsh]
      rcases hp with rfl | rfl <;>
        cases hf1 : e.unlink_fail1 <;> cases hf2 : e.unlink_fail2 <;>
          simp [cleanup, hf1, hf2]

/-- Environment for the C4 witness: a successful run with both unlink
attempts succeeding. -/
def eC4w : Env :=
  ⟨⟨true, some [("sourceUrl", "https://example.com/other.mp4")]⟩,
   ⟨false, false, "", some 4, "video/mp4", [[5, 5, 5, 5]]⟩, none, none, none, false, false⟩

theorem C4_cleanup_attempted_witness :
    (Main.upscale_video eC4w).2.2 = [] ∧ (Improved.upscale_video eC4w).2.2 = [] :=
  (C4_cleanup_attempted eC4w).1 rfl rfl

/-- Environment for the C5 counterexample: declared content length of
600 MB, over the 500 MB cap, so the `try` block raises
`VideoProcessingError`. -/
def eC5 : Env :=
  ⟨⟨true, some [("sourceUrl", "https://example.com/clip.mp4")]⟩,
   ⟨false, false, "", some 629145600, "video/mp4", []⟩, none, none, none, false, false⟩

/-- C5 counterexample: on a `VideoProcessingError` (a processing error) the
`src/improved_main.py` handler returns 500, not the claimed 400. -/
theorem C5_counterexample :
    (pipeline eC5.req eC5.resp eC5.upload_raw_fault eC5.upload_up_fault
      eC5.trans_fault).result =
      Except.error (Exc.vpe "File too large: 629145600 bytes") ∧
    (Improved.upscale_video eC5).1.code = 500 ∧
    (Improved.upscale_video eC5).1.message =
      "Processing failed: File too large: 629145600 bytes" := by decide

/-- C5 (amended): both handlers produce exactly one response; on success
both return 200; on `ValueError` both return 400; on
`VideoProcessingError` `src/main.py` returns 400 but
`src/improved_main.py` returns 500; on any other exception both return
500 with the generic "Internal server error" message. -/
theorem C5_status_codes (e : Env) :
    ((∃ s, (pipeline e.req e.resp e.upload_raw_fault e.upload_up_fault
        e.trans_fault).result = Except.ok s) →
      (Main.upscale_video e).1.code = 200 ∧ (Improved.upscale_video e).1.code = 200) ∧
    (∀ m, (pipeline e.req e.resp e.upload_raw_fault e.upload_up_fault
        e.trans_fault).result = Except.error (Exc.valueErr m) →
      (Main.upscale_video e).1.code = 400 ∧ (Improved.upscale_video e).1.code = 400) ∧
    (∀ m, (pipeline e.req e.resp e.upload_raw_fault e.upload_up_fault
        e.trans_fault).result = Except.error (Exc.vpe m) →
      (Main.upscale_video e).1.code = 400 ∧ (Improved.upscale_video e).1.code = 500) ∧
    (∀ m, (pipeline e.req e.resp e.upload_raw_fault e.upload_up_fault
        e.trans_fault).result = Except.error (Exc.other m) →
      (Main.upscale_video e).1.code = 500 ∧
      (Main.upscale_video e).1.message = "Internal server error" ∧
      (Improved.upscale_video e).1.code = 500 ∧
      (Improved.upscale_video e).1.message = "Internal server error") := by
  refine ⟨?_, ?_, ?_, ?_⟩
  · rintro ⟨s, hs⟩
    exact ⟨by rw [main_result, hs]; rfl, by rw [improved_result, hs]; rfl⟩
  · intro m hm
    exact ⟨by rw [main_result, hm]; rfl, by rw [improved_result, hm]; rfl⟩
  · intro m hm
    exact ⟨by rw [main_result, hm]; rfl, by rw [improved_result, hm]; rfl⟩
  · intro m hm
    exact ⟨by rw [main_result, hm]; rfl, by rw [main_result, hm]; rfl,
      by rw [improved_result, hm]; rfl, by rw [improved_result, hm]; rfl⟩

/-- Environment for the C5 witness: the raw-bucket upload raises. -/
def eC5w : Env :=
  ⟨⟨true, some [("sourceUrl", "https://example.com/clip.mp4")]⟩,
   ⟨false, false, "", none, "video/mp4", [[1]]⟩,
   some "permission denied", none, none, false, false⟩

theorem C5_status_codes_witness :
    (Main.upscale_video eC5w).1.code = 400 ∧ (Improved.upscale_video eC5w).1.code = 500 :=
  (C5_status_codes eC5w).2.2.1 "Failed to upload to GCS: permission denied" (by decide)

/-- Environment for the C10 counterexample: the raw-bucket upload fails,
raising `VideoProcessingError` inside the `try` block of both variants. -/
def eC10 : Env :=
  ⟨⟨true, some [("sourceUrl", "https://example.com/a.mp4")]⟩,
   ⟨false, false, "", none, "video/mp4", [[7, 7]]⟩, some "denied", none, none, false, false⟩

/-- C10 counterexample: on the same request and environment the two
variants disagree at the HTTP interface — `src/main.py` answers 400 with
the bare exception message, `src/improved_main.py` answers 500 with a
"Processing failed: " prefix. -/
theorem C10_counterexample :
    (Main.upscale_video eC10).1.code = 400 ∧
    (Improved.upscale_video eC10).1.code = 500 ∧
    (Main.upscale_video eC10).1.code ≠ (Improved.upscale_video eC10).1.code ∧
    (Main.upscale_video eC10).1.message ≠ (Improved.upscale_video eC10).1.message := by
  decide

/-- C10 (amended): the two variants agree on success (identical 200
responses) and on unexpected faults (identical 500 responses); they
differ exactly on the classified errors: for `ValueError` both return 400
but `src/improved_main.py` prefixes the message with "Invalid request: ",
and for `VideoProcessingError` `src/main.py` returns 400 with the bare
message while `src/improved_main.py` returns 500 with a
"Processing failed: " prefix. -/
theorem C10_interface_relation (e : Env) :
    ((∃ s, (pipeline e.req e.resp e.upload_raw_fault e.upload_up_fault
        e.trans_fault).result = Except.ok s) →
      (Main.upscale_video e).1 = (Improved.upscale_video e).1) ∧
    (∀ m, (pipeline e.req e.resp e.upload_raw_fault e.upload_up_fault
        e.trans_fault).result = Except.error (Exc.valueErr m) →
      (Main.upscale_video e).1 = ⟨"error", m, 400, none, none, none⟩ ∧
      (Improved.upscale_video e).1 =
        ⟨"error", "Invalid request: " ++ m, 400, none, none, none⟩) ∧
    (∀ m, (pipeline e.req e.resp e.upload_raw_fault e.upload_up_fault
        e.trans_fault).result = Except.error (Exc.vpe m) →
      (Main.upscale_video e).1 = ⟨"error", m, 400, none, none, none⟩ ∧
      (Improved.upscale_video e).1 =
        ⟨"error", "Processing failed: " ++ m, 500, none, none, none⟩) ∧
    (∀ m, (pipeline e.req e.resp e.upload_raw_fault e.upload_up_fault
        e.trans_fault).result = Except.error (Exc.other m) →
      (Main.upscale_video e).1 = (Improved.upscale_video e).1 ∧
      (Main.upscale_video e).1 =
        ⟨"error", "Internal server error", 500, none, none, none⟩) := by
  refine ⟨?_, ?_, ?_, ?_⟩
  · rintro ⟨s, hs⟩
    rw [main_result, improved_result, hs]
    rfl
  · intro m hm
    exact ⟨by rw [main_result, hm]; rfl, by rw [improved_result, hm]; rfl⟩
  · intro m hm
    exact ⟨by rw [main_result, hm]; rfl, by rw [improved_result, hm]; rfl⟩
  · intro m hm
    exact ⟨by rw [main_result, improved_result, hm]; rfl, by rw [main_result, hm]; rfl⟩

/-- Environment for the C10 witness: a fully successful run. -/
def eC10w : Env :=
  ⟨⟨true, some [("sourceUrl", "https://example.com/clip.mp4")]⟩,
   ⟨false, false, "", some 10, "video/mp4", [[1, 2, 3]]⟩, none, none, none, false, false⟩

theorem C10_interface_relation_witness :
    (Main.upscale_video eC10w).1 = (Improved.upscale_video eC10w).1 :=
  (C10_interface_relation eC10w).1
    ⟨⟨"gs://vflow-pipeline-to-upscale/clip.mp4",
      "gs://vflow-pipeline-upscaled/clip_upscaled.mp4", "clip_upscaled.mp4"⟩, by decide⟩

end VFlow
